import Mathlib

/-!
Verification development for the conflict-deaths visualization repository
(darioonsori/visualizing-conflict-onsori).

The repository is a set of near-duplicate browser scripts sharing one
pipeline: parse a CSV, detect columns heuristically (detectColumns),
normalize rows (mapRow), split country rows from aggregate rows
(isISO3 and the entity filter), and dispatch chart renderers.

This file shallowly embeds that pipeline.  Machine numbers are modelled
as integers plus an explicit NaN constructor (the CSV cells of this
dataset are integer death counts and integer years); CSV cells are
modelled as the value categories produced by the d3.autoType row
conversion that the scripts apply at load time.  SVG internals of the
renderers are presentation and are abstracted to opaque tokens, while
the control flow around them (empty-subset guards, clear-versus-append
container updates, error dispatch) is embedded faithfully.
-/

namespace VCO

/-- JavaScript number as it occurs in this pipeline: NaN or an integer
value.  The dataset cells are integer counts and years, so the integer
fragment of the IEEE doubles is what the claims range over. -/
inductive JSNum where
  | nan
  | num (n : Int)
deriving DecidableEq

/-- One CSV cell after the d3.autoType conversion that every script in
the repository applies inside d3.csv: numeric strings have already been
turned into numbers, the empty cell into null, booleans parsed; a cell
that is still a string is one that did not parse as a number.  absent
models reading a key the record does not have (undefined). -/
inductive Cell where
  | absent
  | null
  | num (n : Int)
  | str (s : String)
  | bool (b : Bool)
deriving DecidableEq

/-- JavaScript unary plus coercion on a cell.  undefined coerces to NaN,
null to 0, a boolean to 0 or 1, and a remaining (hence non-numeric,
by the autoType invariant) string to NaN. -/
def jsToNumber : Cell → JSNum
  | Cell.absent => JSNum.nan
  | Cell.null => JSNum.num 0
  | Cell.num n => JSNum.num n
  | Cell.str _ => JSNum.nan
  | Cell.bool b => JSNum.num (if b then 1 else 0)

/-- JavaScript expression v || 0 applied to a freshly coerced number:
NaN and 0 are falsy and give 0, every other number passes through. -/
def orZero : JSNum → Int
  | JSNum.nan => 0
  | JSNum.num n => n

/-- JavaScript expression v || 0 applied to an already defaulted integer
field, as in the total reduction of mapRow: only 0 is falsy. -/
def jsOrZero (v : Int) : Int :=
  if v = 0 then 0 else v

/-- JavaScript strict equality test between a field holding a number (or
NaN) and an integer constant such as the snapshot year: NaN compares
unequal to everything. -/
def jsEqNum : JSNum → Int → Bool
  | JSNum.nan, _ => false
  | JSNum.num n, y => n == y

/-- Raw CSV record: ordered association of header string to cell, one
per column, as produced by the CSV parser. -/
def RawRecord : Type := List (String × Cell)

instance : DecidableEq RawRecord :=
  inferInstanceAs (DecidableEq (List (String × Cell)))

/-- Property read d[k] on a raw record for a resolved column: a missing
mapping (the null sentinel of detectColumns) or a key the record does
not carry reads as undefined. -/
def getCell (d : RawRecord) : Option String → Cell
  | none => Cell.absent
  | some k =>
    match d.find? (fun p => p.fst == k) with
    | none => Cell.absent
    | some p => p.snd

/-- Property read d[k] for the always-resolved string columns entity,
code and year. -/
def cellAt (d : RawRecord) (k : String) : Cell :=
  getCell d (some k)

/-- ASCII whitespace test standing for the regular expression class \s
as it applies to the ASCII header strings of this dataset. -/
def isWS (c : Char) : Bool :=
  c == ' ' || c == '\t' || c == '\n' || c == '\r'

/-- Collapse each maximal run of spaces to a single space, the effect of
replace(\s+, one space) after every whitespace character has been mapped
to a plain space. -/
def squeeze : List Char → List Char
  | [] => []
  | [c] => [c]
  | a :: b :: rest =>
    if a == ' ' && b == ' ' then squeeze (b :: rest)
    else a :: squeeze (b :: rest)

/-- Drop leading and trailing spaces, the trim step of the header
normalizer (after squeezing, space is the only whitespace left). -/
def trimSpaces (l : List Char) : List Char :=
  ((l.dropWhile (fun c => c == ' ')).reverse.dropWhile (fun c => c == ' ')).reverse

/-- Header normalization of detectColumns in script.js: lower-case,
collapse whitespace runs to one space, trim. -/
def normHeader (s : String) : String :=
  String.mk (trimSpaces (squeeze (s.toList.map (fun c =>
    if isWS c then ' ' else c.toLower))))

/-- Test whether the first list starts with the second. -/
def leadsWith : List Char → List Char → Bool
  | _, [] => true
  | [], _ :: _ => false
  | a :: as, b :: bs => a == b && leadsWith as bs

/-- Substring containment on character lists: the needle occurs inside
the haystack. -/
def segIn (needle : List Char) : List Char → Bool
  | [] => needle.isEmpty
  | c :: rest => leadsWith (c :: rest) needle || segIn needle rest

/-- JavaScript String.prototype.includes. -/
def strContains (hay needle : String) : Bool :=
  segIn needle.toList hay.toList

/-- Resolved column mapping of detectColumns: entity, code and year
always resolve (they fall back to literal header names), each conflict
type resolves to a header or to the null sentinel. -/
structure Columns where
  entity : String
  code : String
  year : String
  interstate : Option String
  intrastate : Option String
  extrasystemic : Option String
  nonstate : Option String
  onesided : Option String
deriving DecidableEq

/-- Helper pick of detectColumns in script.js: scan the headers in
order and return the first raw header whose normalized form contains
any of the needles, or the null sentinel. -/
def pick (headers : List String) (needles : List String) : Option String :=
  headers.find? (fun h => needles.any (fun nd => strContains (normHeader h) nd))

/-- Column resolver of script.js (second script, the full dashboard):
heuristic substring matching over normalized headers, with literal
fallbacks for entity, code and year.  The fallback fires exactly when
pick returns the null sentinel, since a picked header contains a
nonempty needle and hence is a nonempty (truthy) string. -/
def detectColumns (headers : List String) : Columns :=
  { entity := (pick headers ["entity"]).getD "Entity"
    code := (pick headers ["code"]).getD "Code"
    year := (pick headers ["year"]).getD "Year"
    interstate := pick headers ["conflict type: interstate", " interstate"]
    intrastate := pick headers ["conflict type: intrastate", " intrastate"]
    extrasystemic := pick headers ["conflict type: extrasystemic", " extrasystemic"]
    nonstate := pick headers ["conflict type: non-state", " non state", " non-state conflict"]
    onesided := pick headers ["conflict type: one-sided", " one-sided violence", " one sided"] }

/-- Canonical Record produced by mapRow.  NonState and OneSided embed
the JavaScript object keys written Non-state and One-sided.  The second
script additionally copies code into an iso3 alias field; that alias is
unused by every claim and is not modelled. -/
structure CanonRecord where
  entity : Cell
  code : Cell
  year : JSNum
  Interstate : Int
  Intrastate : Int
  Extrasystemic : Int
  NonState : Int
  OneSided : Int
  total : Int
deriving DecidableEq

/-- Numeric field extraction of mapRow: coerce the mapped cell with
unary plus and default to 0 with the or-zero idiom. -/
def typeCount (d : RawRecord) (k : Option String) : Int :=
  orZero (jsToNumber (getCell d k))

/-- Row normalizer mapRow of the full dashboard script: entity, code
pass through, year is plus-coerced, the five conflict type fields use
the lenient or-zero default, and total reduces over the fixed type
order adding another or-zero guard per field. -/
def mapRow (d : RawRecord) (C : Columns) : CanonRecord :=
  { entity := cellAt d C.entity
    code := cellAt d C.code
    year := jsToNumber (cellAt d C.year)
    Interstate := typeCount d C.interstate
    Intrastate := typeCount d C.intrastate
    Extrasystemic := typeCount d C.extrasystemic
    NonState := typeCount d C.nonstate
    OneSided := typeCount d C.onesided
    total := [typeCount d C.interstate, typeCount d C.intrastate,
              typeCount d C.extrasystemic, typeCount d C.nonstate,
              typeCount d C.onesided].foldl (fun acc v => acc + jsOrZero v) 0 }

/-- Row normalizer mapRow of the first script (and of the standalone
variant file): identical fields, with total written as the plain sum of
the five fields instead of the reduce. -/
def mapRow0 (d : RawRecord) (C : Columns) : CanonRecord :=
  { entity := cellAt d C.entity
    code := cellAt d C.code
    year := jsToNumber (cellAt d C.year)
    Interstate := typeCount d C.interstate
    Intrastate := typeCount d C.intrastate
    Extrasystemic := typeCount d C.extrasystemic
    NonState := typeCount d C.nonstate
    OneSided := typeCount d C.onesided
    total := typeCount d C.interstate + typeCount d C.intrastate +
             typeCount d C.extrasystemic + typeCount d C.nonstate +
             typeCount d C.onesided }

/-- ISO3 validator of script.js: the value is a string matching the
anchored regular expression of three uppercase ASCII letters. -/
def isISO3 : Cell → Bool
  | Cell.str s => s.length == 3 && s.toList.all (fun c => decide ('A' ≤ c ∧ c ≤ 'Z'))
  | _ => false

/-- Strict equality test entity === "World" of the subset filters: true
exactly on the string cell World. -/
def cellIsWorld : Cell → Bool
  | Cell.str s => s == "World"
  | _ => false

/-- Country subset filter of the load dispatcher: ISO3-coded records
whose entity is not the string World. -/
def countriesOf (rows : List CanonRecord) : List CanonRecord :=
  rows.filter (fun r => isISO3 r.code && !cellIsWorld r.entity)

/-- World subset filter of the load dispatcher: records whose entity is
the string World. -/
def worldOnlyOf (rows : List CanonRecord) : List CanonRecord :=
  rows.filter (fun r => cellIsWorld r.entity)

/-- Ordering relation of the top-10 sort: the comparator
d3.descending on totals puts larger totals first. -/
def byTotalDesc (a b : CanonRecord) : Prop :=
  b.total ≤ a.total

instance : DecidableRel byTotalDesc :=
  fun a b => inferInstanceAs (Decidable (b.total ≤ a.total))

instance : IsTotal CanonRecord byTotalDesc :=
  ⟨fun a b => le_total b.total a.total⟩

instance : IsTrans CanonRecord byTotalDesc :=
  ⟨fun _ _ _ hab hbc => le_trans hbc hab⟩

/-- Per-year row filter shared by the snapshot renderers: keep the rows
of the requested year having a strictly positive total.  A NaN year
fails the strict equality and is dropped. -/
def filteredRows (data : List CanonRecord) (year : Int) : List CanonRecord :=
  data.filter (fun d => jsEqNum d.year year && decide (0 < d.total))

/-- Top-10 selection of drawTop10Bar: filter to the requested year and
positive totals, sort by descending total (JavaScript sort is a stable
comparator sort, embedded as stable insertion sort), keep the first
ten. -/
def top10Selection (data : List CanonRecord) (year : Int) : List CanonRecord :=
  (List.insertionSort byTotalDesc (filteredRows data year)).take 10

/-- Content of one chart container, abstracted to the level the claims
speak about: an inline alert message, the svg of the top-10 bar chart
carrying its selection, the waffle svg carrying the World record it
draws, or an opaque token for the remaining chart kinds whose SVG
internals are presentation and out of scope. -/
inductive Rendered where
  | alert (msg : String)
  | svgTop10 (bars : List CanonRecord)
  | svgWaffle (world : CanonRecord)
  | chart (kind : String)
deriving DecidableEq

/-- Renderer drawTop10Bar of the full dashboard script, modelled as a
transformer of the container child list: on an empty filtered subset it
clears the container and leaves only an alert (alertIn); otherwise it
clears the container (html of the empty string) and appends the svg of
the top-10 selection.  Either way the prior content is discarded. -/
def drawTop10Bar (_container : List Rendered) (data : List CanonRecord) (year : Int) :
    List Rendered :=
  let rows := filteredRows data year
  if rows.isEmpty then
    [Rendered.alert ("No country data for year " ++ toString year ++ ".")]
  else
    [Rendered.svgTop10 (top10Selection data year)]

/-- Renderer drawWaffle of the full dashboard script: find the World
row of the requested year; if none exists, clear the container and
leave an alert; otherwise clear and draw the waffle for that row. -/
def drawWaffle (_container : List Rendered) (worldRows : List CanonRecord) (year : Int) :
    List Rendered :=
  match worldRows.find? (fun r => jsEqNum r.year year) with
  | none => [Rendered.alert ("No World data for year " ++ toString year ++ ".")]
  | some d => [Rendered.svgWaffle d]

/-- Renderer drawTop10Bar of the standalone variant file: it appends a
fresh svg to the container without clearing it first and has no
empty-subset guard. -/
def drawTop10BarAppend (container : List Rendered) (data : List CanonRecord) (year : Int) :
    List Rendered :=
  container ++ [Rendered.svgTop10 (top10Selection data year)]

/-- Registered chart containers of the full dashboard script, used for
the global error messages. -/
def ALL_VIZ_SELECTORS : List String :=
  ["#bar-top10", "#grouped", "#heatmap", "#stack100", "#waffle",
   "#histogram", "#violin", "#boxplot", "#timeseries",
   "#map-choropleth", "#map-symbol", "#map-contour", "#sankey", "#network"]

/-- Failure message written by the catch handler of the load promise. -/
def loadFailMsg : String :=
  "Failed to load data. Expected CSV and GeoJSON in /data."

/-- Failure message written when required columns are unresolved. -/
def missingColsMsg : String :=
  "Could not detect required columns in the CSV."

/-- JavaScript falsy test on a resolved string column: only the empty
string is falsy. -/
def jsFalsyStr (s : String) : Bool :=
  s == ""

/-- JavaScript falsy test on an optional resolved column: the null
sentinel and the empty string are falsy. -/
def jsFalsyOpt : Option String → Bool
  | none => true
  | some s => s == ""

/-- Required-columns test of the load dispatcher: entity, code, year,
intrastate, nonstate and onesided must all be truthy. -/
def requiredMissing (C : Columns) : Bool :=
  jsFalsyStr C.entity || jsFalsyStr C.code || jsFalsyStr C.year ||
  jsFalsyOpt C.intrastate || jsFalsyOpt C.nonstate || jsFalsyOpt C.onesided

/-- Page state in which every registered container shows the same alert
message, the effect of the global error paths. -/
def allAlerts (msg : String) : List (String × List Rendered) :=
  ALL_VIZ_SELECTORS.map (fun s => (s, [Rendered.alert msg]))

/-- Load-and-dispatch pipeline of the full dashboard script, as a map
from the load outcome to the contents of every registered container.
A rejected load (none) runs the catch handler; an empty CSV throws
inside the handler and lands in the same catch; unresolved required
columns alert every container and stop before any renderer runs;
otherwise rows are normalized, split, and the renderers run.  Renderers
other than the two the claims cite are abstracted to opaque chart
tokens, since only their empty-guard control flow matters here and the
success branch is never what the error-path claims inspect. -/
def pipelineOutputs : Option (List RawRecord) → List (String × List Rendered)
  | none => allAlerts loadFailMsg
  | some [] => allAlerts loadFailMsg
  | some (r0 :: rest) =>
    let C := detectColumns (r0.map Prod.fst)
    if requiredMissing C then
      allAlerts missingColsMsg
    else
      let rows := (r0 :: rest).map (fun d => mapRow d C)
      let countries := countriesOf rows
      let world := worldOnlyOf rows
      [("#bar-top10", drawTop10Bar [] countries 2023),
       ("#grouped", [Rendered.chart "grouped"]),
       ("#heatmap", [Rendered.chart "heatmap"]),
       ("#stack100", [Rendered.chart "stack100"]),
       ("#waffle", drawWaffle [] world 2023),
       ("#histogram", [Rendered.chart "histogram"]),
       ("#violin", [Rendered.chart "violin"]),
       ("#boxplot", [Rendered.chart "boxplot"]),
       ("#timeseries", [Rendered.chart "timeseries"]),
       ("#map-choropleth", [Rendered.chart "map-choropleth"]),
       ("#map-symbol", [Rendered.chart "map-symbol"]),
       ("#map-contour", [Rendered.chart "map-contour"]),
       ("#sankey", [Rendered.chart "sankey"]),
       ("#network", [Rendered.chart "network"])]

/-- Boolean guard used to state the amended non-negativity claim: the
cell either fails numeric coercion (and will default to 0) or coerces
to a non-negative number. -/
def cellOkB (c : Cell) : Bool :=
  match jsToNumber c with
  | JSNum.nan => true
  | JSNum.num n => decide (0 ≤ n)

/-- Header row of the claims C5 scenario: the OWID export without an
extrasystemic column. -/
def SAMPLE_HEADERS : List String :=
  ["Entity", "Code", "Year",
   "Conflict type: Interstate deaths", "Conflict type: Intrastate deaths",
   "Conflict type: Non-state deaths", "Conflict type: One-sided deaths"]

/-- Header row with all five conflict type columns present. -/
def FULL_HEADERS : List String :=
  ["Entity", "Code", "Year",
   "Conflict type: Interstate deaths", "Conflict type: Intrastate deaths",
   "Conflict type: Extrasystemic deaths", "Conflict type: Non-state deaths",
   "Conflict type: One-sided deaths"]

/-- Column mapping resolved from the full header row. -/
def fullCols : Columns :=
  detectColumns FULL_HEADERS

/-- Raw CSV row of the end-to-end Ukraine scenario. -/
def ukrRaw : RawRecord :=
  [("Entity", Cell.str "Ukraine"), ("Code", Cell.str "UKR"), ("Year", Cell.num 2023),
   ("Conflict type: Interstate deaths", Cell.num 0),
   ("Conflict type: Intrastate deaths", Cell.num 50000),
   ("Conflict type: Extrasystemic deaths", Cell.num 0),
   ("Conflict type: Non-state deaths", Cell.num 0),
   ("Conflict type: One-sided deaths", Cell.num 100)]

/-- Canonical record of the Ukraine scenario, as produced by the row
normalizer from the raw row and the resolved columns. -/
def ukrCanon : CanonRecord :=
  mapRow ukrRaw fullCols

/-- Competitor country record used to build datasets in which Ukraine
is outranked: a valid ISO3 country with a larger 2023 total. -/
def rival (i : Nat) : CanonRecord :=
  { entity := Cell.str ("R" ++ toString i)
    code := Cell.str "RRR"
    year := JSNum.num 2023
    Interstate := 60000
    Intrastate := 0
    Extrasystemic := 0
    NonState := 0
    OneSided := 0
    total := 60000 }

/-- Country dataset for 2023 containing the Ukraine record together
with ten competitors whose totals are all larger. -/
def bigData : List CanonRecord :=
  ukrCanon :: (List.range 10).map rival

/-- Regional aggregate record as it occurs in the OWID dataset: a
rollup entity with a non-ISO3 code and an entity other than World. -/
def africaRec : CanonRecord :=
  { entity := Cell.str "Africa"
    code := Cell.str "OWID_AFR"
    year := JSNum.num 2023
    Interstate := 0
    Intrastate := 7
    Extrasystemic := 0
    NonState := 0
    OneSided := 0
    total := 7 }

/-- Raw row with a malformed interstate cell (a non-numeric string)
and no intrastate column at all, exercising the lenient defaults. -/
def badRaw : RawRecord :=
  [("Entity", Cell.str "X"), ("Code", Cell.str "XXX"), ("Year", Cell.num 2023),
   ("Conflict type: Interstate deaths", Cell.str "N/A")]

/-- Raw row whose year cell is the non-numeric string N/A. -/
def naYearRaw : RawRecord :=
  [("Entity", Cell.str "Y"), ("Code", Cell.str "YYY"), ("Year", Cell.str "N/A"),
   ("Conflict type: Interstate deaths", Cell.num 4)]

/-- Raw row with a negative interstate count cell. -/
def negRaw : RawRecord :=
  [("Entity", Cell.str "Negland"), ("Code", Cell.str "NEG"), ("Year", Cell.num 2023),
   ("Conflict type: Interstate deaths", Cell.num (-5))]

/-- Plain country record used as a concrete classification witness. -/
def usaRec : CanonRecord :=
  { entity := Cell.str "United States"
    code := Cell.str "USA"
    year := JSNum.num 2023
    Interstate := 0
    Intrastate := 0
    Extrasystemic := 0
    NonState := 0
    OneSided := 3
    total := 3 }

end VCO

open VCO

theorem jsOrZero_eq (v : Int) : jsOrZero v = v := by
  unfold jsOrZero
  split <;> omega

/-- C1: every Canonical Record produced by mapRow, in both row
normalizer variants, has its total field equal to the sum of its five
conflict type counts, for every raw record and every resolved column
mapping. -/
theorem mapRow_total_invariant (d : RawRecord) (C : Columns) :
    (mapRow d C).total =
      (mapRow d C).Interstate + (mapRow d C).Intrastate +
      (mapRow d C).Extrasystemic + (mapRow d C).NonState +
      (mapRow d C).OneSided ∧
    (mapRow0 d C).total =
      (mapRow0 d C).Interstate + (mapRow0 d C).Intrastate +
      (mapRow0 d C).Extrasystemic + (mapRow0 d C).NonState +
      (mapRow0 d C).OneSided := by
  constructor
  · simp [mapRow, List.foldl, jsOrZero_eq]
  · simp [mapRow0]

/-- C2 counterexample: the two subsets computed by the load dispatcher
do not partition the records.  The regional aggregate row Africa with
code OWID_AFR is not selected by the countries filter and not selected
by the world filter, so it lands in neither subset, refuting the claim
that every record lands in exactly one of the two. -/
theorem classifier_not_partition :
    ¬ (∀ (rows : List CanonRecord), ∀ r ∈ rows,
        r ∈ countriesOf rows ∨ r ∈ worldOnlyOf rows) := by
  intro h
  have hin : africaRec ∈ [africaRec] := List.mem_singleton_self africaRec
  have := h [africaRec] africaRec hin
  revert this
  decide

/-- C2 amended: the countries filter selects exactly the records with
an ISO3 code and entity different from World, the world filter selects
exactly the records with entity World, and the two subsets are
disjoint; records satisfying neither test (regional rollups) are in
neither subset. -/
theorem classifier_amended (rows : List CanonRecord) (r : CanonRecord) :
    (r ∈ countriesOf rows ↔
      r ∈ rows ∧ (isISO3 r.code && !cellIsWorld r.entity) = true) ∧
    (r ∈ worldOnlyOf rows ↔ r ∈ rows ∧ cellIsWorld r.entity = true) ∧
    ¬ (r ∈ countriesOf rows ∧ r ∈ worldOnlyOf rows) := by
  refine ⟨List.mem_filter, List.mem_filter, ?_⟩
  intro ⟨hc, hw⟩
  have h1 := (List.mem_filter.mp hc).2
  have h2 := (List.mem_filter.mp hw).2
  simp only [Bool.and_eq_true, Bool.not_eq_eq_eq_not, Bool.not_true] at h1
  rw [h2] at h1
  exact absurd h1.2 (by decide)

/-- C2 amended witness: the United States record is selected by the
countries filter of a concrete singleton dataset. -/
theorem classifier_amended_witness : usaRec ∈ countriesOf [usaRec] :=
  (classifier_amended [usaRec] usaRec).1.mpr ⟨List.mem_singleton_self usaRec, by decide⟩

/-- C5: on the seven-column header row without an extrasystemic column,
the column resolver maps interstate to the interstate header and the
extrasystemic field to the null sentinel, and consequently every record
normalized under this mapping has Extrasystemic equal to 0. -/
theorem detect_missing_extrasystemic :
    (detectColumns SAMPLE_HEADERS).interstate =
      some "Conflict type: Interstate deaths" ∧
    (detectColumns SAMPLE_HEADERS).extrasystemic = none ∧
    ∀ d : RawRecord, (mapRow d (detectColumns SAMPLE_HEADERS)).Extrasystemic = 0 := by
  have hC : (detectColumns SAMPLE_HEADERS).extrasystemic = none := by decide
  refine ⟨by decide, hC, ?_⟩
  intro d
  simp [mapRow, typeCount, hC, getCell, jsToNumber, orZero]

theorem cellOkB_orZero (c : Cell) (h : cellOkB c = true) : 0 ≤ orZero (jsToNumber c) := by
  unfold cellOkB at h
  cases hj : jsToNumber c with
  | nan => simp [orZero]
  | num n =>
    rw [hj] at h
    simp only [decide_eq_true_eq] at h
    simpa [orZero] using h

/-- C4: row normalization is lenient and total.  The embedding of
mapRow is a total function, and every conflict type field whose mapped
cell is absent or fails numeric coercion (both coerce to NaN) is set
to 0. -/
theorem mapRow_lenient (d : RawRecord) (C : Columns) :
    (jsToNumber (getCell d C.interstate) = JSNum.nan → (mapRow d C).Interstate = 0) ∧
    (jsToNumber (getCell d C.intrastate) = JSNum.nan → (mapRow d C).Intrastate = 0) ∧
    (jsToNumber (getCell d C.extrasystemic) = JSNum.nan → (mapRow d C).Extrasystemic = 0) ∧
    (jsToNumber (getCell d C.nonstate) = JSNum.nan → (mapRow d C).NonState = 0) ∧
    (jsToNumber (getCell d C.onesided) = JSNum.nan → (mapRow d C).OneSided = 0) := by
  refine ⟨?_, ?_, ?_, ?_, ?_⟩ <;> intro h <;> simp [mapRow, typeCount, h, orZero]

/-- C4 witness: on the concrete row whose interstate cell is the string
N/A and whose intrastate column is missing, both fields default to 0. -/
theorem mapRow_lenient_witness :
    (mapRow badRaw fullCols).Interstate = 0 ∧ (mapRow badRaw fullCols).Intrastate = 0 :=
  ⟨(mapRow_lenient badRaw fullCols).1 (by decide),
   (mapRow_lenient badRaw fullCols).2.1 (by decide)⟩

/-- C6: a record normalized from a row with a non-numeric year cell has
a NaN year, fails the strict equality against every year value, and is
therefore excluded both from a plain year filter and from the per-year
positive-total filter of the renderers. -/
theorem nan_year_excluded (d : RawRecord) (C : Columns)
    (h : jsToNumber (cellAt d C.year) = JSNum.nan) (Y : Int) (rows : List CanonRecord) :
    jsEqNum (mapRow d C).year Y = false ∧
    mapRow d C ∉ rows.filter (fun r => jsEqNum r.year Y) ∧
    mapRow d C ∉ filteredRows rows Y := by
  have hy : (mapRow d C).year = JSNum.nan := by simp [mapRow, h]
  refine ⟨by simp [hy, jsEqNum], ?_, ?_⟩
  · intro hmem
    have h2 := (List.mem_filter.mp hmem).2
    rw [hy] at h2
    simp [jsEqNum] at h2
  · intro hmem
    have h2 := (List.mem_filter.mp hmem).2
    rw [hy] at h2
    simp [jsEqNum] at h2

/-- C6 witness: the concrete row with year cell N/A is excluded from
the 2023 filter of a dataset that contains it. -/
theorem nan_year_excluded_witness :
    jsEqNum (mapRow naYearRaw fullCols).year 2023 = false ∧
    mapRow naYearRaw fullCols ∉ filteredRows [mapRow naYearRaw fullCols] 2023 :=
  ⟨(nan_year_excluded naYearRaw fullCols (by decide) 2023 [mapRow naYearRaw fullCols]).1,
   (nan_year_excluded naYearRaw fullCols (by decide) 2023 [mapRow naYearRaw fullCols]).2.2⟩

/-- C10 counterexample: a raw row with a negative numeric interstate
cell is normalized to a record whose Interstate count is negative; the
or-zero default passes negative numbers through, so the claim that all
five type counts are non-negative for every raw record is false. -/
theorem typeCounts_negative_counterexample :
    (mapRow negRaw fullCols).Interstate = -5 ∧
    ¬ (0 ≤ (mapRow negRaw fullCols).Interstate) := by
  decide

/-- C10 amended: every type count of a normalized record is
non-negative provided each conflict type cell either fails numeric
coercion (defaulting to 0) or coerces to a non-negative number; a
negative numeric cell passes through unclamped. -/
theorem typeCounts_nonneg (d : RawRecord) (C : Columns)
    (h1 : cellOkB (getCell d C.interstate) = true)
    (h2 : cellOkB (getCell d C.intrastate) = true)
    (h3 : cellOkB (getCell d C.extrasystemic) = true)
    (h4 : cellOkB (getCell d C.nonstate) = true)
    (h5 : cellOkB (getCell d C.onesided) = true) :
    0 ≤ (mapRow d C).Interstate ∧ 0 ≤ (mapRow d C).Intrastate ∧
    0 ≤ (mapRow d C).Extrasystemic ∧ 0 ≤ (mapRow d C).NonState ∧
    0 ≤ (mapRow d C).OneSided := by
  refine ⟨?_, ?_, ?_, ?_, ?_⟩ <;>
    simp only [mapRow, typeCount]
  · exact cellOkB_orZero _ h1
  · exact cellOkB_orZero _ h2
  · exact cellOkB_orZero _ h3
  · exact cellOkB_orZero _ h4
  · exact cellOkB_orZero _ h5

/-- C10 amended witness: the Ukraine scenario row has well-formed
non-negative cells and its five normalized counts are non-negative. -/
theorem typeCounts_nonneg_witness :
    0 ≤ (mapRow ukrRaw fullCols).Interstate ∧ 0 ≤ (mapRow ukrRaw fullCols).Intrastate ∧
    0 ≤ (mapRow ukrRaw fullCols).Extrasystemic ∧ 0 ≤ (mapRow ukrRaw fullCols).NonState ∧
    0 ≤ (mapRow ukrRaw fullCols).OneSided :=
  typeCounts_nonneg ukrRaw fullCols (by decide) (by decide) (by decide) (by decide) (by decide)

/-- C7 counterexample: the claim quantifies over every dataset
containing the Ukraine scenario record, but inclusion in the top-10
selection depends on the competition.  In a country dataset where ten
other 2023 records have larger totals, Ukraine is not selected, so the
claim as stated is false. -/
theorem top10_scenario_counterexample :
    ukrCanon ∈ bigData ∧ countriesOf bigData = bigData ∧
    ukrCanon ∉ top10Selection bigData 2023 := by
  decide

/-- C7 amended: the Ukraine scenario record normalizes to total 50100;
the top-10 selection is always ordered by descending total; and it
contains every row passing the per-year positive-total filter, Ukraine
included, whenever at most ten rows pass that filter (with more than
ten candidates, inclusion additionally requires ranking among the ten
largest totals). -/
theorem top10_scenario_amended :
    ukrCanon.total = 50100 ∧
    (∀ (data : List CanonRecord) (year : Int),
      List.Sorted byTotalDesc (top10Selection data year)) ∧
    (∀ (data : List CanonRecord) (year : Int) (r : CanonRecord),
      r ∈ filteredRows data year → (filteredRows data year).length ≤ 10 →
      r ∈ top10Selection data year) := by
  refine ⟨by decide, ?_, ?_⟩
  · intro data year
    exact List.Pairwise.take (List.sorted_insertionSort byTotalDesc (filteredRows data year))
  · intro data year r hr hlen
    unfold top10Selection
    rw [List.take_of_length_le]
    · exact ((List.perm_insertionSort byTotalDesc (filteredRows data year)).mem_iff).mpr hr
    · rw [(List.perm_insertionSort byTotalDesc (filteredRows data year)).length_eq]
      exact hlen

/-- C7 amended witness: in the concrete two-row country dataset of the
scenario, the top-10 selection for 2023 contains Ukraine, whose total
is 50100. -/
theorem top10_scenario_amended_witness :
    ukrCanon ∈ top10Selection [ukrCanon, rival 0] 2023 ∧ ukrCanon.total = 50100 :=
  ⟨top10_scenario_amended.2.2 [ukrCanon, rival 0] 2023 ukrCanon (by decide) (by decide),
   top10_scenario_amended.1⟩

/-- C3: when the upstream load fails (rejected promise or empty CSV)
every registered container receives the load failure alert, and when a
required column cannot be resolved from the header row the pipeline
stops, renders no chart, and writes the missing-columns alert into
every registered container. -/
theorem pipeline_failure_alerts (r0 : RawRecord) (rest : List RawRecord)
    (h : requiredMissing (detectColumns (r0.map Prod.fst)) = true) :
    pipelineOutputs none = allAlerts loadFailMsg ∧
    pipelineOutputs (some []) = allAlerts loadFailMsg ∧
    pipelineOutputs (some (r0 :: rest)) = allAlerts missingColsMsg ∧
    ∀ s ∈ ALL_VIZ_SELECTORS,
      (s, [Rendered.alert loadFailMsg]) ∈ pipelineOutputs none ∧
      (s, [Rendered.alert missingColsMsg]) ∈ pipelineOutputs (some (r0 :: rest)) := by
  have h1 : pipelineOutputs none = allAlerts loadFailMsg := rfl
  have h2 : pipelineOutputs (some (r0 :: rest)) = allAlerts missingColsMsg := by
    simp [pipelineOutputs, h]
  refine ⟨h1, rfl, h2, ?_⟩
  intro s hs
  constructor
  · rw [h1]
    exact List.mem_map_of_mem _ hs
  · rw [h2]
    exact List.mem_map_of_mem _ hs

/-- C3 witness: a CSV whose only column is Entity cannot resolve the
required count columns, and the concrete pipeline run alerts every
container, the waffle container among them. -/
theorem pipeline_failure_alerts_witness :
    pipelineOutputs (some [[("Entity", Cell.str "World")]]) = allAlerts missingColsMsg ∧
    ("#waffle", [Rendered.alert missingColsMsg]) ∈
      pipelineOutputs (some [[("Entity", Cell.str "World")]]) :=
  ⟨(pipeline_failure_alerts [("Entity", Cell.str "World")] [] (by decide)).2.2.1,
   ((pipeline_failure_alerts [("Entity", Cell.str "World")] [] (by decide)).2.2.2
     "#waffle" (by decide)).2⟩

/-- C8: a renderer whose selected subset is empty clears its container,
writes a deterministic human-readable no-data message, and draws no
marks: drawTop10Bar when no country row passes the per-year
positive-total filter, and drawWaffle when no World row matches the
requested year. -/
theorem renderer_empty_subset (c : List Rendered) (data : List CanonRecord) (year : Int) :
    (filteredRows data year = [] →
      drawTop10Bar c data year =
        [Rendered.alert ("No country data for year " ++ toString year ++ ".")]) ∧
    (data.find? (fun r => jsEqNum r.year year) = none →
      drawWaffle c data year =
        [Rendered.alert ("No World data for year " ++ toString year ++ ".")]) := by
  constructor
  · intro h
    simp [drawTop10Bar, h]
  · intro h
    simp [drawWaffle, h]

/-- C8 witness: on the concrete empty dataset both renderers produce
exactly their alert message. -/
theorem renderer_empty_subset_witness :
    drawTop10Bar [] [] 2023 =
      [Rendered.alert ("No country data for year " ++ toString (2023 : Int) ++ ".")] ∧
    drawWaffle [] [] 2023 =
      [Rendered.alert ("No World data for year " ++ toString (2023 : Int) ++ ".")] :=
  ⟨(renderer_empty_subset [] [] 2023).1 (by decide),
   (renderer_empty_subset [] [] 2023).2 (by decide)⟩

/-- C9 counterexample: the top-10 renderer of the standalone variant
file appends a fresh svg without clearing its container, so invoking it
twice with identical parameters leaves different container content than
invoking it once, refuting idempotence for that routine. -/
theorem redraw_append_counterexample :
    drawTop10BarAppend (drawTop10BarAppend [] [ukrCanon] 2023) [ukrCanon] 2023 ≠
      drawTop10BarAppend [] [ukrCanon] 2023 := by
  decide

/-- C9 amended: the renderers of the full dashboard script clear the
target container before drawing, so invoking them twice in succession
with identical parameters yields the same container content as invoking
them once. -/
theorem redraw_idempotent_main (c : List Rendered) (data : List CanonRecord) (year : Int) :
    drawTop10Bar (drawTop10Bar c data year) data year = drawTop10Bar c data year ∧
    drawWaffle (drawWaffle c data year) data year = drawWaffle c data year :=
  ⟨rfl, rfl⟩
